import Mathlib

/-!
Verification of the BLOOMZ scoring engine (src/app.py and src/bloomz.app.py).

The two Python variants share a parameter record, the mass-accuracy term and
the grading thresholds; they differ in how a peak with no library candidate is
handled, in the plausibility fallback, and in whether manual-library
corroboration enters the confidence formula.  Python floats are modelled as
real numbers; `round(x, 3)` applied to the confidence and sub-scores in the
returned dicts is binary-float display rounding and is not modelled.  Values
that the Python code represents as None / NaN / unparsable strings are
modelled with `Option`.
-/

namespace Bloomz

/-- The frozen `AgentParams` dataclass, shared (field for field, with the same
defaults) by `app.py` and `bloomz.app.py`. -/
structure AgentParams where
  mass_tolerance : ℝ := 0.005
  top_k_blum : ℕ := 5
  rt_ref_tolerance : ℝ := 0.30
  rt_heavy_early_strength : ℝ := 0.25
  expected_rt_a : ℝ := 3.0
  expected_rt_b : ℝ := -5.0
  w_mass : ℝ := 0.40
  w_name : ℝ := 0.25
  w_manual_lib : ℝ := 0.25
  w_plaus : ℝ := 0.10

/-- One normalized reference-library row (`normalize_blum_db` output:
`blum_name`, `blum_exact_mass`, `blum_class`); rows without a parseable mass
were dropped upstream. -/
structure LibEntry where
  blum_name : String
  blum_exact_mass : ℝ
  blum_class : String := ""

/-- One normalized peak row.  `manual_hit_mz` and `manual_lib_score` model the
analyst-entered strings after the `float(...)` parse attempts in the Python
code: `none` stands for a blank / missing / non-numeric entry. -/
structure Peak where
  rt : ℝ
  mz : ℝ
  manual_hit_name : String := ""
  manual_hit_mz : Option ℝ := none
  manual_lib_score : Option ℝ := none

/-- One row of the optional retention-time reference table. -/
structure RtRef where
  rt_ref_name : String
  rt_ref_expected_rt : ℝ

/-- `mass_term(sample_mz, ref_mz, tol)`, identical in both files:
`err = abs(sample_mz - ref_mz)`; `0.0` if `err > tol`, else
`exp(-(err / max(tol, 1e-12)))`. -/
noncomputable def mass_term (sample_mz ref_mz tol : ℝ) : ℝ :=
  let err := |sample_mz - ref_mz|
  if err > tol then 0.0 else Real.exp (-(err / max tol 1e-12))

/-- The grading ladder used verbatim in both `agent_score_row` variants. -/
noncomputable def grade_of (conf : ℝ) : String :=
  if conf ≥ 0.90 then "High Confidence"
  else if conf ≥ 0.70 then "Probable"
  else if conf ≥ 0.50 then "Possible"
  else "Flagged"

/-- Modelled from the spec: Python `str.strip()` (standard library, not in
src/) — drop leading and trailing whitespace. -/
def stripChars (l : List Char) : List Char :=
  ((l.dropWhile Char.isWhitespace).reverse.dropWhile Char.isWhitespace).reverse

/-- Modelled from the spec: Python `str.lower()` (standard library, not in
src/) — lowercase every character. -/
def lowerChars (l : List Char) : List Char := l.map Char.toLower

/-- Modelled from the spec: Python `str.split(",")` (standard library, not in
src/) — split at every comma, keeping empty pieces. -/
def splitComma : List Char → List (List Char)
  | [] => [[]]
  | c :: rest =>
    match splitComma rest with
    | [] => [[]]
    | s :: ss => if c = ',' then [] :: s :: ss else (c :: s) :: ss

/-- Modelled from the spec: the matched-character count underlying the Python
standard-library `difflib.SequenceMatcher` ratio (library code, not in src/),
described by the spec as the matching-character count "in the longest common
aligned subsequence sense". -/
def lcsLength : List Char → List Char → ℕ
  | [], _ => 0
  | _ :: _, [] => 0
  | a :: as, b :: bs =>
    if a = b then lcsLength as bs + 1
    else max (lcsLength (a :: as) bs) (lcsLength as (b :: bs))
  termination_by x y => x.length + y.length
  decreasing_by all_goals (simp [List.length_cons]; try omega)

/-- Modelled from the spec: `difflib.SequenceMatcher(None, a, b).ratio()`
(Python standard library, not in src/): twice the matched-character count
divided by the total length of both sequences, and `1.0` when both are
empty. -/
noncomputable def seq_ratio (a b : List Char) : ℝ :=
  if a.length + b.length = 0 then 1.0
  else 2 * (lcsLength a b : ℝ) / ((a.length : ℝ) + (b.length : ℝ))

/-- `name_similarity(a, b)`: strip and lowercase both arguments, return `0.0`
if either is then empty, else the sequence ratio.  (`bloomz.app.py` first
tries the optional `rapidfuzz.token_set_ratio` import and falls back to the
same `difflib` ratio; the `difflib` path, which is the only path in `app.py`,
is the one modelled.) -/
noncomputable def name_similarity (a b : String) : ℝ :=
  let a2 := lowerChars (stripChars a.data)
  let b2 := lowerChars (stripChars b.data)
  if a2 = [] ∨ b2 = [] then 0.0
  else seq_ratio a2 b2

/-- The keyword list `[k.strip().lower() for k in keyword_csv.split(",") if k.strip()]`
(stripping decides membership, so filtering the stripped-and-lowered pieces on
non-emptiness is equivalent). -/
def parse_keywords (keyword_csv : String) : List (List Char) :=
  ((splitComma keyword_csv.data).map (fun k => lowerChars (stripChars k))).filter
    (fun k => !k.isEmpty)

/-- `bloomz.app.py` `plausibility_score`: `0.5` when the keyword list is
empty, `1.0` when some keyword is a substring of the lowercased class, else
`0.25`.  (The `species` argument is unused in the source as well.) -/
noncomputable def plausibility_score (species blum_class keyword_csv : String) : ℝ :=
  let cls := lowerChars blum_class.data
  let keywords := parse_keywords keyword_csv
  if keywords = [] then 0.5
  else if keywords.any (fun k => decide (k <:+: cls)) then 1.0 else 0.25

/-- `expected_rt_from_mass(mass, a, b) = a * ln(max(mass, 1e-9)) + b`. -/
noncomputable def expected_rt_from_mass (mass a b : ℝ) : ℝ :=
  a * Real.log (max mass 1e-9) + b

/-- `bloomz.app.py` `rt_penalty`: with an explicit (non-NaN) expected RT,
penalty `min(0.5, max(0, |delta| - rt_ref_tolerance) * 0.20)`; otherwise the
heuristic model, penalising only `delta < 0`.  Returns `(penalty, delta)`. -/
noncomputable def rt_penalty (peak_rt candidate_mass : ℝ) (rt_ref_expected : Option ℝ)
    (params : AgentParams) : ℝ × ℝ :=
  match rt_ref_expected with
  | some e =>
    let delta := peak_rt - e
    let over := max 0.0 (|delta| - params.rt_ref_tolerance)
    (min 0.5 (over * 0.20), delta)
  | none =>
    let expected := expected_rt_from_mass candidate_mass params.expected_rt_a params.expected_rt_b
    let delta := peak_rt - expected
    (if delta < 0 then min 0.5 (|delta| * params.rt_heavy_early_strength) else 0.0, delta)

/-- `normalize_manual_lib_score(raw)`: `0.5` when `float(raw)` fails
(modelled by `none`), otherwise scale detection at `1.0` and `100.0`, each
branch clamped into `[0, 1]`. -/
noncomputable def normalize_manual_lib_score (raw : Option ℝ) : ℝ :=
  match raw with
  | none => 0.5
  | some x =>
    if x ≤ 1.0 then max 0.0 (min 1.0 x)
    else if x ≤ 100.0 then max 0.0 (min 1.0 (x / 100.0))
    else max 0.0 (min 1.0 (x / 1000.0))

/-- The mass gate of `pick_best_blum_candidate` / `agent_score_row`:
`blum[(blum_exact_mass >= mz - tol) & (blum_exact_mass <= mz + tol)]`. -/
noncomputable def candidate_filter (peak_mz tol : ℝ) (blum : List LibEntry) : List LibEntry :=
  blum.filter (fun e => decide (peak_mz - tol ≤ e.blum_exact_mass ∧ e.blum_exact_mass ≤ peak_mz + tol))

/-- First element attaining the maximal key, modelling
`df.sort_values(key, ascending=False).iloc[0]` on a non-empty frame (ties are
broken arbitrarily by the pandas quicksort; the claims do not depend on which
tied row wins). -/
noncomputable def best_by {α : Type} (f : α → ℝ) : List α → Option α
  | [] => none
  | x :: xs => some (xs.foldl (fun b y => if f b < f y then y else b) x)

/-- One mass-gated candidate together with the per-candidate columns that
`pick_best_blum_candidate` adds: `mass_term`, `name_sim`, `plaus` and the
internal ranking blend `0.55 * mass_term + 0.35 * name_sim + 0.10 * plaus`. -/
structure RankedCand where
  entry : LibEntry
  mass_term : ℝ
  name_sim : ℝ
  plaus : ℝ
  internal_rank : ℝ

/-- The per-candidate column computation of `pick_best_blum_candidate`. -/
noncomputable def rank_candidate (peak_mz : ℝ) (manual_hit_name species plaus_keywords_csv : String)
    (params : AgentParams) (e : LibEntry) : RankedCand :=
  let mt := mass_term peak_mz e.blum_exact_mass params.mass_tolerance
  let ns := name_similarity manual_hit_name e.blum_name
  let pl := plausibility_score species e.blum_class plaus_keywords_csv
  ⟨e, mt, ns, pl, 0.55 * mt + 0.35 * ns + 0.10 * pl⟩

/-- `pick_best_blum_candidate`: mass-gate the library, score each candidate,
and return the row with the highest `internal_rank` (`none` when the gate is
empty).  The top-K shortlist the Python function also returns feeds only the
inspection UI and is not modelled. -/
noncomputable def pick_best_blum_candidate (peak_mz : ℝ)
    (manual_hit_name : String) (blum : List LibEntry) (species plaus_keywords_csv : String)
    (params : AgentParams) : Option RankedCand :=
  best_by (fun c => c.internal_rank)
    ((candidate_filter peak_mz params.mass_tolerance blum).map
      (rank_candidate peak_mz manual_hit_name species plaus_keywords_csv params))

/-- RT-reference resolution in `agent_score_row`: fuzzy-match the best
candidate's name against the reference table and accept the best row only when
its name similarity is at least `0.70`. -/
noncomputable def resolve_rt_ref (cand_name : String) (rt_ref : Option (List RtRef)) : Option ℝ :=
  match rt_ref with
  | none => none
  | some l =>
    match best_by (fun r => name_similarity cand_name r.rt_ref_name) l with
    | none => none
    | some r =>
      if name_similarity cand_name r.rt_ref_name ≥ 0.70 then some r.rt_ref_expected_rt else none

/-- The manual-corroboration mass term of `agent_score_row`:
`mass_term(sample_mz, manual_mz_val, tol)` when a manual reference m/z parsed,
else `0.0`. -/
noncomputable def manual_mass_term_of (row : Peak) (params : AgentParams) : ℝ :=
  match row.manual_hit_mz with
  | some m => mass_term row.mz m params.mass_tolerance
  | none => 0.0

/-- The result columns of `bloomz.app.py`'s `agent_score_row` that the claims
talk about (the emoji gate marker and the top-K shortlist are presentation
only and omitted). -/
structure ScoredResult where
  best_blum_name : String
  manual_score_norm : ℝ
  name_sim : ℝ
  plaus : ℝ
  rt_delta : ℝ
  rt_pen : ℝ
  confidence : ℝ
  agent_grade : String

/-- The `cand_name` local of `agent_score_row`: `""` until a best candidate
is found. -/
def cand_name_of : Option RankedCand → String
  | some c => c.entry.blum_name
  | none => ""

/-- The `cand_mass` local of `agent_score_row`: the Python `float("nan")`
initial value is modelled as `none`. -/
def cand_mass_of : Option RankedCand → Option ℝ
  | some c => some c.entry.blum_exact_mass
  | none => none

/-- The `cand_mass_term` local of `agent_score_row` (default `0.0`). -/
def cand_mass_term_of : Option RankedCand → ℝ
  | some c => c.mass_term
  | none => 0.0

/-- The `cand_name_sim` local of `agent_score_row` (default `0.0`). -/
def cand_name_sim_of : Option RankedCand → ℝ
  | some c => c.name_sim
  | none => 0.0

/-- The `cand_plaus` local of `agent_score_row` (default `0.5`). -/
def cand_plaus_of : Option RankedCand → ℝ
  | some c => c.plaus
  | none => 0.5

/-- The `rt_ref_expected` local of `agent_score_row`: stays `None` unless a
best candidate was found (the lookup runs inside the `best_blum is not None`
block). -/
noncomputable def rt_ref_expected_of (best_blum : Option RankedCand)
    (rt_ref : Option (List RtRef)) : Option ℝ :=
  match best_blum with
  | some _ => resolve_rt_ref (cand_name_of best_blum) rt_ref
  | none => none

/-- `bloomz.app.py` `agent_score_row`: parse manual fields, pick the best
mass-gated candidate (falling back to mass term `0.0`, name similarity `0.0`,
plausibility `0.5` and candidate mass = sample m/z when the gate is empty),
resolve an optional RT reference for it, and combine
`w_manual_lib * manual_norm + w_mass * max(cand_mass_term, manual_mass_term)
 + w_name * cand_name_sim + w_plaus * cand_plaus - penalty`,
clamped to `[0, 1]`, into a graded result. -/
noncomputable def agent_score_row (row : Peak) (blum : List LibEntry)
    (rt_ref : Option (List RtRef)) (species plaus_keywords_csv : String)
    (params : AgentParams) : ScoredResult :=
  let sample_mz := row.mz
  let peak_rt := row.rt
  let manual_norm := normalize_manual_lib_score row.manual_lib_score
  let best_blum := pick_best_blum_candidate sample_mz row.manual_hit_name blum species
    plaus_keywords_csv params
  let pd := rt_penalty peak_rt ((cand_mass_of best_blum).getD sample_mz)
    (rt_ref_expected_of best_blum rt_ref) params
  let conf0 := params.w_manual_lib * manual_norm
    + params.w_mass * max (cand_mass_term_of best_blum) (manual_mass_term_of row params)
    + params.w_name * cand_name_sim_of best_blum
    + params.w_plaus * cand_plaus_of best_blum
    - pd.1
  let conf := max 0.0 (min 1.0 conf0)
  { best_blum_name := cand_name_of best_blum
    manual_score_norm := manual_norm
    name_sim := cand_name_sim_of best_blum
    plaus := cand_plaus_of best_blum
    rt_delta := pd.2
    rt_pen := pd.1
    confidence := conf
    agent_grade := grade_of conf }

/-- The confidence emitted by `agent_score_row`, spelled out. -/
lemma agent_score_row_confidence (row : Peak) (blum : List LibEntry)
    (rt_ref : Option (List RtRef)) (species plaus_keywords_csv : String)
    (params : AgentParams) :
    (agent_score_row row blum rt_ref species plaus_keywords_csv params).confidence =
      max 0.0 (min 1.0
        (params.w_manual_lib * normalize_manual_lib_score row.manual_lib_score
          + params.w_mass * max
              (cand_mass_term_of (pick_best_blum_candidate row.mz row.manual_hit_name blum
                species plaus_keywords_csv params))
              (manual_mass_term_of row params)
          + params.w_name * cand_name_sim_of (pick_best_blum_candidate row.mz row.manual_hit_name
              blum species plaus_keywords_csv params)
          + params.w_plaus * cand_plaus_of (pick_best_blum_candidate row.mz row.manual_hit_name
              blum species plaus_keywords_csv params)
          - (rt_penalty row.rt
              ((cand_mass_of (pick_best_blum_candidate row.mz row.manual_hit_name blum species
                plaus_keywords_csv params)).getD row.mz)
              (rt_ref_expected_of (pick_best_blum_candidate row.mz row.manual_hit_name blum
                species plaus_keywords_csv params) rt_ref)
              params).1)) := rfl

/-- The grade emitted by `agent_score_row` is the grading ladder applied to
its confidence. -/
lemma agent_score_row_grade (row : Peak) (blum : List LibEntry)
    (rt_ref : Option (List RtRef)) (species plaus_keywords_csv : String)
    (params : AgentParams) :
    (agent_score_row row blum rt_ref species plaus_keywords_csv params).agent_grade =
      grade_of (agent_score_row row blum rt_ref species plaus_keywords_csv params).confidence := rfl

end Bloomz

namespace App

open Bloomz (AgentParams LibEntry Peak mass_term name_similarity parse_keywords
  expected_rt_from_mass grade_of candidate_filter best_by)

/-- `app.py` `plausibility_score`: `1.0` when some keyword is a substring of
the lowercased class, else `0.5` (no separate empty-keyword case: an empty
list also falls through to `0.5`). -/
noncomputable def plausibility_score (species blum_class keyword_csv : String) : ℝ :=
  let cls := Bloomz.lowerChars blum_class.data
  let keywords := parse_keywords keyword_csv
  if keywords.any (fun k => decide (k <:+: cls)) then 1.0 else 0.5

/-- `app.py` `rt_penalty`: the heuristic expected-RT model only (this variant
has no RT-reference table).  Returns `(penalty, delta)`. -/
noncomputable def rt_penalty (peak_rt candidate_mass : ℝ) (params : AgentParams) : ℝ × ℝ :=
  let expected := expected_rt_from_mass candidate_mass params.expected_rt_a params.expected_rt_b
  let delta := peak_rt - expected
  (if delta < 0 then min 0.5 (|delta| * params.rt_heavy_early_strength) else 0.0, delta)

/-- The result columns of `app.py`'s `agent_score_row`.  The empty-gate branch
of the Python function returns a dict with only the name, confidence and
grade keys; the remaining fields are defaulted to `0` / `""` here. -/
structure AppResult where
  best_blum_name : String
  best_blum_class : String := ""
  confidence : ℝ
  agent_grade : String
  rt_delta : ℝ := 0
  rt_pen : ℝ := 0

/-- `app.py` `agent_score_row`: mass-gate the library; on an empty gate return
confidence `0.0`, grade `"Flagged"`, name `"None"`; otherwise take the
candidate with the highest `mass_term`, compute its name similarity and
plausibility and the RT penalty, and combine
`w_mass * mass_term + w_name * name_sim + w_plaus * plaus - penalty`,
clamped to `[0, 1]`.  (This variant has no manual-library term.) -/
noncomputable def agent_score_row (row : Peak) (blum : List LibEntry)
    (species plaus_keywords_csv : String) (params : AgentParams) : AppResult :=
  let sample_mz := row.mz
  let peak_rt := row.rt
  let manual_name := row.manual_hit_name
  let cands := candidate_filter sample_mz params.mass_tolerance blum
  match best_by (fun e => mass_term sample_mz e.blum_exact_mass params.mass_tolerance) cands with
  | none => { best_blum_name := "None", confidence := 0.0, agent_grade := "Flagged" }
  | some best =>
    let mt := mass_term sample_mz best.blum_exact_mass params.mass_tolerance
    let ns := name_similarity manual_name best.blum_name
    let pl := plausibility_score species best.blum_class plaus_keywords_csv
    let pd := rt_penalty peak_rt best.blum_exact_mass params
    let conf0 := params.w_mass * mt + params.w_name * ns + params.w_plaus * pl - pd.1
    let conf := max 0.0 (min 1.0 conf0)
    { best_blum_name := best.blum_name
      best_blum_class := best.blum_class
      confidence := conf
      agent_grade := grade_of conf
      rt_delta := pd.2
      rt_pen := pd.1 }

end App

/-! ## Supporting lemmas -/

namespace Bloomz

lemma mass_term_nonneg (s r t : ℝ) : 0 ≤ mass_term s r t := by
  simp only [mass_term]
  split_ifs
  · norm_num
  · exact (Real.exp_pos _).le

lemma max_tol_pos (t : ℝ) : (0:ℝ) < max t 1e-12 :=
  lt_of_lt_of_le (by norm_num) (le_max_right _ _)

lemma mass_term_le_one (s r t : ℝ) : mass_term s r t ≤ 1 := by
  simp only [mass_term]
  split_ifs with h
  · norm_num
  · have harg : -(|s - r| / max t 1e-12) ≤ 0 := by
      have := div_nonneg (abs_nonneg (s - r)) (max_tol_pos t).le
      linarith
    have := Real.exp_le_exp.mpr harg
    simpa [Real.exp_zero] using this

lemma lcsLength_self (l : List Char) : lcsLength l l = l.length := by
  induction l with
  | nil => simp [lcsLength]
  | cons a as ih => simp [lcsLength, ih]

lemma lcsLength_le_left (a b : List Char) : lcsLength a b ≤ a.length := by
  induction a, b using lcsLength.induct <;> simp_all [lcsLength] <;> omega

lemma lcsLength_le_right (a b : List Char) : lcsLength a b ≤ b.length := by
  induction a, b using lcsLength.induct <;> simp_all [lcsLength] <;> omega

lemma seq_ratio_nonneg (a b : List Char) : 0 ≤ seq_ratio a b := by
  unfold seq_ratio
  split_ifs with h
  · norm_num
  · have hd : (0:ℝ) < (a.length : ℝ) + (b.length : ℝ) := by
      have : 0 < a.length + b.length := Nat.pos_of_ne_zero h
      exact_mod_cast this
    exact div_nonneg (by positivity) hd.le

lemma seq_ratio_le_one (a b : List Char) : seq_ratio a b ≤ 1 := by
  unfold seq_ratio
  split_ifs with h
  · norm_num
  · have hd : (0:ℝ) < (a.length : ℝ) + (b.length : ℝ) := by
      have : 0 < a.length + b.length := Nat.pos_of_ne_zero h
      exact_mod_cast this
    rw [div_le_one hd]
    have h1 := lcsLength_le_left a b
    have h2 := lcsLength_le_right a b
    have : 2 * lcsLength a b ≤ a.length + b.length := by omega
    exact_mod_cast this

lemma seq_ratio_self (l : List Char) (h : l ≠ []) : seq_ratio l l = 1 := by
  unfold seq_ratio
  have hlen : l.length ≠ 0 := by simpa using h
  rw [if_neg (by omega), lcsLength_self]
  have hd : (0:ℝ) < (l.length : ℝ) + (l.length : ℝ) := by
    have : 0 < l.length := Nat.pos_of_ne_zero hlen
    have h2 : (0:ℝ) < (l.length : ℝ) := by exact_mod_cast this
    linarith
  field_simp
  ring

lemma name_similarity_nonneg (a b : String) : 0 ≤ name_similarity a b := by
  simp only [name_similarity]
  split_ifs
  · norm_num
  · exact seq_ratio_nonneg _ _

lemma name_similarity_le_one (a b : String) : name_similarity a b ≤ 1 := by
  simp only [name_similarity]
  split_ifs
  · norm_num
  · exact seq_ratio_le_one _ _

lemma plausibility_score_nonneg (s c k : String) : 0 ≤ plausibility_score s c k := by
  simp only [plausibility_score]
  split_ifs <;> norm_num

lemma plausibility_score_le_one (s c k : String) : plausibility_score s c k ≤ 1 := by
  simp only [plausibility_score]
  split_ifs <;> norm_num

lemma clamp01_nonneg (x : ℝ) : 0 ≤ max 0 (min 1 x) := le_max_left 0 _

lemma clamp01_le_one (x : ℝ) : max 0 (min 1 x) ≤ 1 :=
  max_le (by norm_num) (min_le_left 1 x)

lemma clamp01_le_of_le (x c : ℝ) (hc : 0 ≤ c) (hx : x ≤ c) : max 0 (min 1 x) ≤ c :=
  max_le hc ((min_le_right 1 x).trans hx)

end Bloomz

namespace App

lemma app_plausibility_nonneg (s c k : String) : 0 ≤ plausibility_score s c k := by
  simp only [plausibility_score]
  split_ifs <;> norm_num

lemma app_plausibility_le_one (s c k : String) : plausibility_score s c k ≤ 1 := by
  simp only [plausibility_score]
  split_ifs <;> norm_num

lemma rt_penalty_fst_nonneg (rt m : ℝ) (params : Bloomz.AgentParams)
    (hs : 0 ≤ params.rt_heavy_early_strength) : 0 ≤ (rt_penalty rt m params).1 := by
  simp only [rt_penalty]
  split_ifs
  · exact le_min (by norm_num) (mul_nonneg (abs_nonneg _) hs)
  · norm_num

lemma rt_penalty_eq (rt m : ℝ) (params : Bloomz.AgentParams) :
    rt_penalty rt m params =
      (if rt - Bloomz.expected_rt_from_mass m params.expected_rt_a params.expected_rt_b < 0
        then min 0.5
          (|rt - Bloomz.expected_rt_from_mass m params.expected_rt_a params.expected_rt_b|
            * params.rt_heavy_early_strength)
        else 0.0,
       rt - Bloomz.expected_rt_from_mass m params.expected_rt_a params.expected_rt_b) := rfl

lemma agent_score_row_empty (row : Bloomz.Peak) (blum : List Bloomz.LibEntry)
    (species kw : String) (params : Bloomz.AgentParams)
    (h : Bloomz.best_by
        (fun e => Bloomz.mass_term row.mz e.blum_exact_mass params.mass_tolerance)
        (Bloomz.candidate_filter row.mz params.mass_tolerance blum) = none) :
    agent_score_row row blum species kw params =
      { best_blum_name := "None", confidence := 0.0, agent_grade := "Flagged" } := by
  simp only [agent_score_row, h]

lemma agent_score_row_some (row : Bloomz.Peak) (blum : List Bloomz.LibEntry)
    (species kw : String) (params : Bloomz.AgentParams) (best : Bloomz.LibEntry)
    (h : Bloomz.best_by
        (fun e => Bloomz.mass_term row.mz e.blum_exact_mass params.mass_tolerance)
        (Bloomz.candidate_filter row.mz params.mass_tolerance blum) = some best) :
    (agent_score_row row blum species kw params).confidence =
      max 0.0 (min 1.0
        (params.w_mass * Bloomz.mass_term row.mz best.blum_exact_mass params.mass_tolerance
          + params.w_name * Bloomz.name_similarity row.manual_hit_name best.blum_name
          + params.w_plaus * plausibility_score species best.blum_class kw
          - (rt_penalty row.rt best.blum_exact_mass params).1)) := by
  simp only [agent_score_row, h]

end App

/-! ## Claim theorems -/

/-- C3: the grading thresholds are fixed with inclusive lower bounds:
`0.90 ≤ c` gives "High Confidence", `0.70 ≤ c < 0.90` gives "Probable",
`0.50 ≤ c < 0.70` gives "Possible" and `c < 0.50` gives "Flagged" (so the
exact boundary values 0.90, 0.70, 0.50 land in the higher bucket). -/
theorem c3_grade_thresholds (conf : ℝ) :
    (0.90 ≤ conf → Bloomz.grade_of conf = "High Confidence") ∧
    (0.70 ≤ conf ∧ conf < 0.90 → Bloomz.grade_of conf = "Probable") ∧
    (0.50 ≤ conf ∧ conf < 0.70 → Bloomz.grade_of conf = "Possible") ∧
    (conf < 0.50 → Bloomz.grade_of conf = "Flagged") := by
  refine ⟨fun h => ?_, fun h => ?_, fun h => ?_, fun h => ?_⟩ <;>
    unfold Bloomz.grade_of
  · rw [if_pos h]
  · rw [if_neg (not_le.mpr h.2), if_pos h.1]
  · rw [if_neg (not_le.mpr (by linarith [h.2])), if_neg (not_le.mpr h.2), if_pos h.1]
  · rw [if_neg (not_le.mpr (by linarith)), if_neg (not_le.mpr (by linarith)),
      if_neg (not_le.mpr h)]

/-- Witness for C3 at the three boundary values and one flagged value. -/
theorem c3_grade_thresholds_witness :
    Bloomz.grade_of 0.90 = "High Confidence" ∧ Bloomz.grade_of 0.70 = "Probable" ∧
    Bloomz.grade_of 0.50 = "Possible" ∧ Bloomz.grade_of 0.49 = "Flagged" :=
  ⟨(c3_grade_thresholds 0.90).1 (by norm_num),
   (c3_grade_thresholds 0.70).2.1 ⟨by norm_num, by norm_num⟩,
   (c3_grade_thresholds 0.50).2.2.1 ⟨by norm_num, by norm_num⟩,
   (c3_grade_thresholds 0.49).2.2.2 (by norm_num)⟩

/-- C4 counterexample: for the positive tolerance `1e-13` (below the `1e-12`
floor) a pair at exactly `|delta| = tol` scores `exp(-1/10)`, not `exp(-1)`,
so the claimed boundary value is wrong for tolerances below the floor. -/
theorem c4_counterexample : Bloomz.mass_term 0 1e-13 1e-13 ≠ Real.exp (-1) := by
  have habs : |(0:ℝ) - 1e-13| = 1e-13 := by norm_num
  have hmax : max (1e-13:ℝ) 1e-12 = 1e-12 := by norm_num
  have h1 : Bloomz.mass_term 0 1e-13 1e-13 = Real.exp (-(1/10)) := by
    unfold Bloomz.mass_term
    rw [habs, if_neg (by norm_num), hmax]
    norm_num
  rw [h1]
  intro h
  have hlt := Real.exp_lt_exp.mpr (show (-1:ℝ) < -(1/10) by norm_num)
  linarith

/-- C4 amended: `mass_term` equals `exp(-|delta| / max(tol, 1e-12))` inside
the gate (boundary inclusive) and `0` outside it; an exact match scores
exactly `1.0` for any positive tolerance, and a pair with `|delta| = tol`
scores exactly `exp(-1)` for every tolerance at or above the `1e-12`
floor (not for every positive tolerance). -/
theorem c4_mass_term_amended (s r t : ℝ) :
    (|s - r| ≤ t → Bloomz.mass_term s r t = Real.exp (-(|s - r| / max t 1e-12))) ∧
    (t < |s - r| → Bloomz.mass_term s r t = 0) ∧
    (0 < t → Bloomz.mass_term s s t = 1) ∧
    (1e-12 ≤ t → |s - r| = t → Bloomz.mass_term s r t = Real.exp (-1)) := by
  refine ⟨fun h => ?_, fun h => ?_, fun h => ?_, fun h1 h2 => ?_⟩ <;>
    simp only [Bloomz.mass_term]
  · rw [if_neg (not_lt.mpr h)]
  · rw [if_pos h]
    norm_num
  · rw [sub_self, abs_zero, if_neg (not_lt.mpr h.le)]
    simp [Real.exp_zero]
  · rw [h2, if_neg (by simp), max_eq_left h1]
    have ht : t ≠ 0 := by positivity
    rw [div_self ht]

/-- Witness for C4 at tolerance 0.005: an exact match scores 1 and an exactly
borderline pair scores `exp(-1)`. -/
theorem c4_mass_term_witness :
    Bloomz.mass_term 3 3 0.005 = 1 ∧ Bloomz.mass_term 0.005 0 0.005 = Real.exp (-1) :=
  ⟨(c4_mass_term_amended 3 3 0.005).2.2.1 (by norm_num),
   (c4_mass_term_amended 0.005 0 0.005).2.2.2 (by norm_num) (by norm_num)⟩

/-- C7: for a fixed tolerance `t > 0`, `mass_term` is non-increasing in the
absolute mass error, including across the gate boundary (where it drops
to 0). -/
theorem c7_mass_term_monotone (t d1 d2 : ℝ) (ht : 0 < t) (h0 : 0 ≤ d1) (h12 : d1 ≤ d2) :
    Bloomz.mass_term d2 0 t ≤ Bloomz.mass_term d1 0 t := by
  have ha1 : |d1 - (0:ℝ)| = d1 := by rw [sub_zero, abs_of_nonneg h0]
  have ha2 : |d2 - (0:ℝ)| = d2 := by rw [sub_zero, abs_of_nonneg (h0.trans h12)]
  simp only [Bloomz.mass_term]
  rw [ha1, ha2]
  split_ifs with hgt2 hgt1 hgt1
  · exact le_refl _
  · have := Real.exp_pos (-(d1 / max t 1e-12))
    linarith
  · exact absurd (lt_of_lt_of_le hgt1 h12) hgt2
  · apply Real.exp_le_exp.mpr
    apply neg_le_neg
    exact (div_le_div_right (Bloomz.max_tol_pos t)).mpr h12

/-- Witness for C7: at tolerance 0.005, the score at error 0.002 is at most
the score at error 0.001. -/
theorem c7_mass_term_monotone_witness :
    Bloomz.mass_term 0.002 0 0.005 ≤ Bloomz.mass_term 0.001 0 0.005 :=
  c7_mass_term_monotone 0.005 0.001 0.002 (by norm_num) (by norm_num) (by norm_num)

/-- Helper: the two literal spellings of the clamp coincide. -/
lemma clamp_literals (x : ℝ) : max 0.0 (min 1.0 x) = max 0 (min 1 x) := by norm_num

/-- C5: for every weight configuration, peak, library, RT reference, species
and keyword list, the confidence emitted by either variant's `agent_score_row`
lies in `[0, 1]`. -/
theorem c5_confidence_clamped (row : Bloomz.Peak) (blum : List Bloomz.LibEntry)
    (rt_ref : Option (List Bloomz.RtRef)) (species kw : String)
    (params : Bloomz.AgentParams) :
    (0 ≤ (Bloomz.agent_score_row row blum rt_ref species kw params).confidence ∧
      (Bloomz.agent_score_row row blum rt_ref species kw params).confidence ≤ 1) ∧
    (0 ≤ (App.agent_score_row row blum species kw params).confidence ∧
      (App.agent_score_row row blum species kw params).confidence ≤ 1) := by
  constructor
  · rw [Bloomz.agent_score_row_confidence, clamp_literals]
    exact ⟨Bloomz.clamp01_nonneg _, Bloomz.clamp01_le_one _⟩
  · rcases hb : Bloomz.best_by
        (fun e => Bloomz.mass_term row.mz e.blum_exact_mass params.mass_tolerance)
        (Bloomz.candidate_filter row.mz params.mass_tolerance blum) with _ | best
    · rw [App.agent_score_row_empty row blum species kw params hb]
      norm_num
    · rw [App.agent_score_row_some row blum species kw params best hb, clamp_literals]
      exact ⟨Bloomz.clamp01_nonneg _, Bloomz.clamp01_le_one _⟩

/-- C6: with no explicit RT reference resolved, `rt_penalty` (identical in
both variants) reports the signed delta against the heuristic expected RT
`a * ln(max(mass, 1e-9)) + b`, penalises only an early-eluting peak by
`min(0.5, |delta| * rt_heavy_early_strength)`, and the penalty is capped at
0.5 and (for a non-negative configured strength) non-negative. -/
theorem c6_rt_penalty_heuristic (peak_rt m : ℝ) (params : Bloomz.AgentParams) :
    Bloomz.rt_penalty peak_rt m none params = App.rt_penalty peak_rt m params ∧
    (App.rt_penalty peak_rt m params).2 =
      peak_rt - (params.expected_rt_a * Real.log (max m 1e-9) + params.expected_rt_b) ∧
    ((App.rt_penalty peak_rt m params).2 < 0 →
      (App.rt_penalty peak_rt m params).1 =
        min 0.5 (|(App.rt_penalty peak_rt m params).2| * params.rt_heavy_early_strength)) ∧
    (0 ≤ (App.rt_penalty peak_rt m params).2 → (App.rt_penalty peak_rt m params).1 = 0) ∧
    (0 ≤ params.rt_heavy_early_strength → 0 ≤ (App.rt_penalty peak_rt m params).1) ∧
    (App.rt_penalty peak_rt m params).1 ≤ 0.5 := by
  refine ⟨rfl, rfl, ?_, ?_, App.rt_penalty_fst_nonneg peak_rt m params, ?_⟩
  · intro h
    rw [App.rt_penalty_eq] at h ⊢
    simp only at h ⊢
    rw [if_pos h]
  · intro h
    rw [App.rt_penalty_eq] at h ⊢
    simp only at h ⊢
    rw [if_neg (not_lt.mpr h)]
    norm_num
  · rw [App.rt_penalty_eq]
    simp only
    split_ifs
    · exact min_le_left _ _
    · norm_num

/-- Witness for C6: candidate mass 1 (so the heuristic expected RT is -5) and
observed RT 0 give a positive delta and penalty 0. -/
theorem c6_rt_penalty_witness : (App.rt_penalty 0 1 {}).1 = 0 := by
  apply (c6_rt_penalty_heuristic 0 1 {}).2.2.2.1
  rw [(c6_rt_penalty_heuristic 0 1 {}).2.1]
  rw [max_eq_left (by norm_num : (1e-9:ℝ) ≤ 1), Real.log_one]
  norm_num

/-- C8 counterexample: a raw manual score of 2000 is clamped to 1.0, not
returned as `2000 / 1000 = 2`. -/
theorem c8_counterexample :
    Bloomz.normalize_manual_lib_score (some 2000) ≠ 2000 / 1000 := by
  have h : Bloomz.normalize_manual_lib_score (some 2000) = 1 := by
    simp only [Bloomz.normalize_manual_lib_score]
    rw [if_neg (by norm_num), if_neg (by norm_num)]
    norm_num
  rw [h]
  norm_num

/-- C8 amended: `normalize_manual_lib_score` performs scale detection
(`x ≤ 1` kept, `1 < x ≤ 100` divided by 100, `x > 100` divided by 1000) with
every numeric branch clamped into `[0, 1]` — not returned raw — and a missing
or non-numeric input yields exactly 0.5; the result is always in `[0, 1]`. -/
theorem c8_normalize_amended (x : ℝ) :
    Bloomz.normalize_manual_lib_score none = 0.5 ∧
    (x ≤ 1 → Bloomz.normalize_manual_lib_score (some x) = max 0 (min 1 x)) ∧
    (1 < x → x ≤ 100 → Bloomz.normalize_manual_lib_score (some x) = max 0 (min 1 (x / 100))) ∧
    (100 < x → Bloomz.normalize_manual_lib_score (some x) = max 0 (min 1 (x / 1000))) ∧
    0 ≤ Bloomz.normalize_manual_lib_score (some x) ∧
    Bloomz.normalize_manual_lib_score (some x) ≤ 1 := by
  refine ⟨rfl, fun h => ?_, fun h1 h2 => ?_, fun h => ?_, ?_, ?_⟩ <;>
    simp only [Bloomz.normalize_manual_lib_score]
  · rw [if_pos (show x ≤ 1.0 by linarith), clamp_literals]
  · rw [if_neg (not_le.mpr (show (1.0:ℝ) < x by linarith)),
      if_pos (show x ≤ 100.0 by linarith), clamp_literals]
    norm_num
  · rw [if_neg (not_le.mpr (show (1.0:ℝ) < x by linarith)),
      if_neg (not_le.mpr (show (100.0:ℝ) < x by linarith)), clamp_literals]
    norm_num
  · split_ifs <;> (rw [clamp_literals]; exact Bloomz.clamp01_nonneg _)
  · split_ifs <;> (rw [clamp_literals]; exact Bloomz.clamp01_le_one _)

/-- Witness for C8 at the three numeric scales. -/
theorem c8_normalize_witness :
    Bloomz.normalize_manual_lib_score (some 0.8) = max 0 (min 1 0.8) ∧
    Bloomz.normalize_manual_lib_score (some 85) = max 0 (min 1 (85 / 100)) ∧
    Bloomz.normalize_manual_lib_score (some 850) = max 0 (min 1 (850 / 1000)) :=
  ⟨(c8_normalize_amended 0.8).2.1 (by norm_num),
   (c8_normalize_amended 85).2.2.1 (by norm_num) (by norm_num),
   (c8_normalize_amended 850).2.2.2.1 (by norm_num)⟩

/-- Helper: a confidence below 0.90 never grades "High Confidence". -/
lemma grade_of_ne_high {conf : ℝ} (h : conf < 0.90) :
    Bloomz.grade_of conf ≠ "High Confidence" := by
  unfold Bloomz.grade_of
  rw [if_neg (not_le.mpr h)]
  split_ifs <;> decide

/-- C1 counterexample: in `bloomz.app.py`, a peak (m/z 1, RT 0, no manual
entries) scored against an empty library — so the mass gate returns no
candidate — still gets confidence `0.25 * 0.5 + 0.10 * 0.5 = 0.175`, not 0. -/
theorem c1_counterexample :
    (Bloomz.agent_score_row ⟨0, 1, "", none, none⟩ [] none "" "" {}).confidence ≠ 0 := by
  have hconf : (Bloomz.agent_score_row ⟨0, 1, "", none, none⟩ [] none "" "" {}).confidence
      = max 0.0 (min 1.0 0.175) := by
    rw [Bloomz.agent_score_row_confidence]
    norm_num [Bloomz.pick_best_blum_candidate, Bloomz.candidate_filter, Bloomz.best_by,
      Bloomz.cand_mass_term_of, Bloomz.cand_name_sim_of, Bloomz.cand_plaus_of,
      Bloomz.cand_mass_of, Bloomz.rt_ref_expected_of, Bloomz.manual_mass_term_of,
      Bloomz.normalize_manual_lib_score, Bloomz.rt_penalty, Bloomz.expected_rt_from_mass,
      max_eq_left (show (1e-9:ℝ) ≤ 1 by norm_num), Real.log_one]
  rw [hconf, max_eq_right (le_min (by norm_num) (by norm_num)),
    min_eq_right (by norm_num : (0.175:ℝ) ≤ 1.0)]
  norm_num

/-- C1 amended: with an empty mass gate, the `app.py` variant emits confidence
exactly 0 and grade "Flagged"; the `bloomz.app.py` variant instead keeps
scoring with the candidate terms zeroed (name similarity 0, mass term 0) and
a neutral plausibility of 0.5, so its confidence is the clamped value of
`w_manual_lib * manualNorm + w_mass * max(0, manualMassTerm) + w_plaus * 0.5
 - rtPenalty`, which need not be 0 (and its grade need not be "Flagged"). -/
theorem c1_empty_gate_amended (row : Bloomz.Peak) (blum : List Bloomz.LibEntry)
    (rt_ref : Option (List Bloomz.RtRef)) (species kw : String) (params : Bloomz.AgentParams)
    (h : Bloomz.candidate_filter row.mz params.mass_tolerance blum = []) :
    (App.agent_score_row row blum species kw params).confidence = 0 ∧
    (App.agent_score_row row blum species kw params).agent_grade = "Flagged" ∧
    (Bloomz.agent_score_row row blum rt_ref species kw params).confidence =
      max 0 (min 1
        (params.w_manual_lib * Bloomz.normalize_manual_lib_score row.manual_lib_score
          + params.w_mass * max 0 (Bloomz.manual_mass_term_of row params)
          + params.w_name * 0
          + params.w_plaus * 0.5
          - (Bloomz.rt_penalty row.rt row.mz none params).1)) := by
  have hbApp : Bloomz.best_by
      (fun e => Bloomz.mass_term row.mz e.blum_exact_mass params.mass_tolerance)
      (Bloomz.candidate_filter row.mz params.mass_tolerance blum) = none := by
    rw [h]
    rfl
  have hbB : Bloomz.pick_best_blum_candidate row.mz row.manual_hit_name blum species kw
      params = none := by
    unfold Bloomz.pick_best_blum_candidate
    rw [h]
    rfl
  refine ⟨?_, ?_, ?_⟩
  · rw [App.agent_score_row_empty row blum species kw params hbApp]
    norm_num
  · rw [App.agent_score_row_empty row blum species kw params hbApp]
  · rw [Bloomz.agent_score_row_confidence, hbB]
    norm_num [Bloomz.cand_mass_term_of, Bloomz.cand_name_sim_of, Bloomz.cand_plaus_of,
      Bloomz.cand_mass_of, Bloomz.rt_ref_expected_of]

/-- Witness for C1 (amended, app.py part): a peak at m/z 1 against an empty
library gives confidence 0 and grade "Flagged". -/
theorem c1_empty_gate_witness :
    (App.agent_score_row ⟨0, 1, "", none, none⟩ [] "" "" {}).confidence = 0 ∧
    (App.agent_score_row ⟨0, 1, "", none, none⟩ [] "" "" {}).agent_grade = "Flagged" :=
  ⟨(c1_empty_gate_amended ⟨0, 1, "", none, none⟩ [] none "" "" {} rfl).1,
   (c1_empty_gate_amended ⟨0, 1, "", none, none⟩ [] none "" "" {} rfl).2.1⟩

/-- C2: whenever the mass gate is non-empty (a best candidate `c` exists),
the `bloomz.app.py` confidence is exactly
`w_manual_lib * manualScoreNorm + w_mass * max(candMassTerm, manualMassTerm)
 + w_name * nameSimilarity + w_plaus * plausibility - rtPenalty`,
clamped to `[0, 1]`, with the manual mass term `0.0` when no manual reference
m/z was supplied. -/
theorem c2_confidence_formula (row : Bloomz.Peak) (blum : List Bloomz.LibEntry)
    (rt_ref : Option (List Bloomz.RtRef)) (species kw : String)
    (params : Bloomz.AgentParams) (c : Bloomz.RankedCand)
    (h : Bloomz.pick_best_blum_candidate row.mz row.manual_hit_name blum species kw params
      = some c) :
    (Bloomz.agent_score_row row blum rt_ref species kw params).confidence =
      max 0 (min 1
        (params.w_manual_lib * Bloomz.normalize_manual_lib_score row.manual_lib_score
          + params.w_mass * max c.mass_term (Bloomz.manual_mass_term_of row params)
          + params.w_name * c.name_sim
          + params.w_plaus * c.plaus
          - (Bloomz.rt_penalty row.rt c.entry.blum_exact_mass
              (Bloomz.resolve_rt_ref c.entry.blum_name rt_ref) params).1)) := by
  rw [Bloomz.agent_score_row_confidence, h, clamp_literals]
  simp only [Bloomz.cand_mass_term_of, Bloomz.cand_name_sim_of, Bloomz.cand_plaus_of,
    Bloomz.cand_mass_of, Bloomz.rt_ref_expected_of, Bloomz.cand_name_of, Option.getD]

/-- Witness for C2: a single library entry at exactly the peak's m/z passes
the gate and the confidence equals the clamped weighted formula for it. -/
theorem c2_confidence_formula_witness :
    (Bloomz.agent_score_row ⟨0, 1, "", none, none⟩ [⟨"x", 1, ""⟩] none "" "" {}).confidence =
      max 0 (min 1
        (({} : Bloomz.AgentParams).w_manual_lib * Bloomz.normalize_manual_lib_score none
          + ({} : Bloomz.AgentParams).w_mass
            * max (Bloomz.rank_candidate 1 "" "" "" {} ⟨"x", 1, ""⟩).mass_term
                (Bloomz.manual_mass_term_of ⟨0, 1, "", none, none⟩ {})
          + ({} : Bloomz.AgentParams).w_name * (Bloomz.rank_candidate 1 "" "" "" {} ⟨"x", 1, ""⟩).name_sim
          + ({} : Bloomz.AgentParams).w_plaus * (Bloomz.rank_candidate 1 "" "" "" {} ⟨"x", 1, ""⟩).plaus
          - (Bloomz.rt_penalty 0 1 (Bloomz.resolve_rt_ref "x" none) {}).1)) := by
  have hfil : Bloomz.candidate_filter (1:ℝ) ({} : Bloomz.AgentParams).mass_tolerance
      [⟨"x", 1, ""⟩] = [⟨"x", 1, ""⟩] := by
    unfold Bloomz.candidate_filter
    rw [List.filter_cons_of_pos, List.filter_nil]
    exact decide_eq_true (by norm_num)
  have hpick : Bloomz.pick_best_blum_candidate (1:ℝ) "" [⟨"x", 1, ""⟩] "" "" {} =
      some (Bloomz.rank_candidate 1 "" "" "" {} ⟨"x", 1, ""⟩) := by
    unfold Bloomz.pick_best_blum_candidate
    rw [hfil]
    rfl
  exact c2_confidence_formula ⟨0, 1, "", none, none⟩ [⟨"x", 1, ""⟩] none "" "" {}
    (Bloomz.rank_candidate 1 "" "" "" {} ⟨"x", 1, ""⟩) hpick

/-- C9: `name_similarity` of any string with itself is 1 when the string is
non-empty after trimming; it is 0 whenever either argument is the empty
string, and more generally whenever either argument is empty after
trimming. -/
theorem c9_name_similarity_props (a b : String) :
    (Bloomz.stripChars a.data ≠ [] → Bloomz.name_similarity a a = 1) ∧
    (a = "" ∨ b = "" → Bloomz.name_similarity a b = 0) ∧
    (Bloomz.stripChars a.data = [] ∨ Bloomz.stripChars b.data = [] →
      Bloomz.name_similarity a b = 0) := by
  refine ⟨fun h => ?_, fun h => ?_, fun h => ?_⟩
  · have h2 : Bloomz.lowerChars (Bloomz.stripChars a.data) ≠ [] := by
      simpa [Bloomz.lowerChars] using h
    simp only [Bloomz.name_similarity]
    rw [if_neg (by simp [h2])]
    exact Bloomz.seq_ratio_self _ h2
  · rcases h with h | h <;> subst h <;>
      norm_num [Bloomz.name_similarity, Bloomz.stripChars, Bloomz.lowerChars]
  · have h2 : Bloomz.lowerChars (Bloomz.stripChars a.data) = [] ∨
        Bloomz.lowerChars (Bloomz.stripChars b.data) = [] := by
      rcases h with h | h
      · exact Or.inl (by simp [Bloomz.lowerChars, h])
      · exact Or.inr (by simp [Bloomz.lowerChars, h])
    simp only [Bloomz.name_similarity]
    rw [if_pos h2]
    norm_num

/-- Witness for C9: a concrete compound name matches itself with similarity 1
and an empty first argument gives similarity 0. -/
theorem c9_name_similarity_witness :
    Bloomz.name_similarity "Thymoquinone" "Thymoquinone" = 1 ∧
    Bloomz.name_similarity "" "Carvacrol" = 0 :=
  ⟨(c9_name_similarity_props "Thymoquinone" "Carvacrol").1 (by decide),
   (c9_name_similarity_props "" "Carvacrol").2.1 (Or.inl rfl)⟩

/-- C10: in the `app.py` variant under its default weights
(`w_mass = 0.40`, `w_name = 0.25`, `w_plaus = 0.10`, manual-library term
absent from the formula) the confidence never exceeds 0.75, so the grade
"High Confidence" (threshold 0.90) is never assigned. -/
theorem c10_app_default_cap (row : Bloomz.Peak) (blum : List Bloomz.LibEntry)
    (species kw : String) (params : Bloomz.AgentParams)
    (hm : params.w_mass = 0.40) (hn : params.w_name = 0.25) (hp : params.w_plaus = 0.10)
    (hs : 0 ≤ params.rt_heavy_early_strength) :
    (App.agent_score_row row blum species kw params).confidence ≤ 0.75 ∧
    (App.agent_score_row row blum species kw params).agent_grade ≠ "High Confidence" := by
  rcases hb : Bloomz.best_by
      (fun e => Bloomz.mass_term row.mz e.blum_exact_mass params.mass_tolerance)
      (Bloomz.candidate_filter row.mz params.mass_tolerance blum) with _ | best
  · rw [App.agent_score_row_empty row blum species kw params hb]
    constructor
    · norm_num
    · decide
  · have hconf : (App.agent_score_row row blum species kw params).confidence ≤ 0.75 := by
      rw [App.agent_score_row_some row blum species kw params best hb, clamp_literals]
      apply Bloomz.clamp01_le_of_le _ _ (by norm_num)
      have h1 := Bloomz.mass_term_le_one row.mz best.blum_exact_mass params.mass_tolerance
      have h2 := Bloomz.name_similarity_le_one row.manual_hit_name best.blum_name
      have h3 := App.app_plausibility_le_one species best.blum_class kw
      have h4 := App.rt_penalty_fst_nonneg row.rt best.blum_exact_mass params hs
      rw [hm, hn, hp]
      linarith
    refine ⟨hconf, ?_⟩
    have hgrade : (App.agent_score_row row blum species kw params).agent_grade =
        Bloomz.grade_of (App.agent_score_row row blum species kw params).confidence := by
      simp only [App.agent_score_row, hb]
    rw [hgrade]
    exact grade_of_ne_high (lt_of_le_of_lt hconf (by norm_num))

/-- Witness for C10: under default parameters, a matching single-entry
library still caps the app.py confidence at 0.75 and the grade below
"High Confidence". -/
theorem c10_app_default_cap_witness :
    (App.agent_score_row ⟨0, 1, "", none, none⟩ [⟨"x", 1, ""⟩] "" "" {}).confidence ≤ 0.75 ∧
    (App.agent_score_row ⟨0, 1, "", none, none⟩ [⟨"x", 1, ""⟩] "" "" {}).agent_grade ≠
      "High Confidence" :=
  c10_app_default_cap ⟨0, 1, "", none, none⟩ [⟨"x", 1, ""⟩] "" "" {} rfl rfl rfl (by norm_num)
